import Mathlib

set_option autoImplicit false

/-
Shallow embedding of the Telegram admin bot of the Language_school_bot
repository (src/bot.js and the duplicated draft src/unnamed/part_000).
The chat transport and the Supabase record source are modelled as
environments: each gateway send is given its outcome (the returned
message id, or failure) through a list consumed in order, each delete
its outcome through a function on message ids, and each record-source
query its result (thrown error, null body, or a row list) as an
explicit parameter of the handler.
-/

namespace LanguageSchoolBot

/-- A lesson-application row as read from the Applications collection
(fields used by bot.js: id, firstName, lastName, email, phone,
lessonFormat; email and phone may be absent or empty). -/
structure AppRecord where
  id : Nat
  firstName : String
  lastName : String
  email : Option String
  phone : Option String
  lessonFormat : String
  deriving Repr, DecidableEq

/-- A call-back request row as read from the CallBacks collection. -/
structure CbRecord where
  id : Nat
  phone : String
  deriving Repr, DecidableEq

/-- One inline-keyboard button: visible label plus the opaque
callback_data token. -/
structure InlineButton where
  text : String
  callback_data : String
  deriving Repr, DecidableEq

/-- The message options objects passed to bot.sendMessage: an optional
parse_mode, whether the main reply keyboard is attached, and the rows of
an inline keyboard. -/
structure SendOptions where
  parse_mode : Option String
  mainKb : Bool
  inline_kb : List (List InlineButton)
  deriving Repr, DecidableEq

/-- Options object absent (plain bot.sendMessage call). -/
def noOpts : SendOptions := ⟨none, false, []⟩

/-- Options with parse_mode Markdown only. -/
def mdOpts : SendOptions := ⟨some "Markdown", false, []⟩

/-- The mainKeyboard constant of bot.js (reply keyboard only). -/
def mainKbOpts : SendOptions := ⟨none, true, []⟩

/-- Options spread of parse_mode HTML with the main keyboard. -/
def htmlMainOpts : SendOptions := ⟨some "HTML", true, []⟩

/-- Options with parse_mode HTML only. -/
def htmlOnlyOpts : SendOptions := ⟨some "HTML", false, []⟩

/-- One effect issued to the messaging gateway: a deleteMessage attempt
(with its swallowed outcome), a sendMessage attempt (tracked when issued
through sendAndTrackMessage; result is the returned message id, none on
failure), or an answerCallbackQuery acknowledgement. -/
inductive GatewayOp where
  | delete (chatId : Int) (msgId : Nat) (ok : Bool)
  | send (chatId : Int) (text : String) (opts : SendOptions) (tracked : Bool) (result : Option Nat)
  | ack (cbQueryId : Nat)
  deriving Repr, DecidableEq

/-- JS Map lookup (chatMessages.get): first binding of the key, in
insertion order. -/
def mapGet (m : List (Int × List Nat)) (k : Int) : Option (List Nat) :=
  match m with
  | [] => none
  | (k2, v) :: rest => if k2 = k then some v else mapGet rest k

/-- JS Map.set: replace the existing binding in place, or append a new
binding at the end. -/
def mapSet (m : List (Int × List Nat)) (k : Int) (v : List Nat) : List (Int × List Nat) :=
  match m with
  | [] => [(k, v)]
  | (k2, v2) :: rest => if k2 = k then (k, v) :: rest else (k2, v2) :: mapSet rest k v

/-- JS Set.add: append the element unless already present. -/
def setAdd (s : List Int) (x : Int) : List Int :=
  if s.contains x then s else s ++ [x]

/-- The in-memory state of bot.js: the authorizedUsers set and the
chatMessages map (chat id to tracked message ids). -/
structure BotState where
  authorizedUsers : List Int
  chatMessages : List (Int × List Nat)
  deriving Repr, DecidableEq

/-- Initial state: the admin chat id is authorized by default, no
tracked messages. -/
def initialState (adminChatId : Int) : BotState :=
  ⟨[adminChatId], []⟩

/-- The isAuthorized helper: membership in authorizedUsers. -/
def isAuthorized (st : BotState) (chatId : Int) : Bool :=
  st.authorizedUsers.contains chatId

/-- Execution context threaded through one handler invocation: current
state, the pending sendMessage outcomes (head consumed by the next
send; none means the send fails), the outcome of each deleteMessage by
message id, and the gateway effects issued so far. -/
structure Ctx where
  st : BotState
  outcomes : List (Option Nat)
  deleteOk : Nat → Bool
  ops : List GatewayOp

/-- Fresh context for one handler invocation. -/
def Ctx.init (st : BotState) (outs : List (Option Nat)) (delOk : Nat → Bool) : Ctx :=
  ⟨st, outs, delOk, []⟩

/-- clearPreviousMessages: issue a best-effort delete for every tracked
id of the chat (failures caught and ignored), then reset the chat's
entry in chatMessages to the empty list, unconditionally. -/
def clearPreviousMessages (c : Ctx) (chatId : Int) : Ctx :=
  let dels : List GatewayOp :=
    match mapGet c.st.chatMessages chatId with
    | some ids => ids.map (fun i => GatewayOp.delete chatId i (c.deleteOk i))
    | none => []
  { c with
    st := { c.st with chatMessages := mapSet c.st.chatMessages chatId [] }
    ops := c.ops ++ dels }

/-- sendAndTrackMessage: send through the gateway; on success append the
returned message id to the chat's tracked list (creating it when
absent); on failure log and return, leaving the state untouched. -/
def sendAndTrackMessage (c : Ctx) (chatId : Int) (text : String) (opts : SendOptions) : Ctx :=
  match c.outcomes.headD none with
  | some mid =>
    { c with
      st := { c.st with
        chatMessages :=
          mapSet c.st.chatMessages chatId (((mapGet c.st.chatMessages chatId).getD []) ++ [mid]) }
      outcomes := c.outcomes.tail
      ops := c.ops ++ [GatewayOp.send chatId text opts true (some mid)] }
  | none =>
    { c with
      outcomes := c.outcomes.tail
      ops := c.ops ++ [GatewayOp.send chatId text opts true none] }

/-- A plain bot.sendMessage call (not tracked in chatMessages). -/
def sendMessageRaw (c : Ctx) (chatId : Int) (text : String) (opts : SendOptions) : Ctx :=
  { c with
    outcomes := c.outcomes.tail
    ops := c.ops ++ [GatewayOp.send chatId text opts false (c.outcomes.headD none)] }

/-- Result of one Supabase query: a thrown request error, or a response
whose data field is null, or a list of rows. -/
abbrev QueryResult (α : Type) : Type := Except Unit (Option (List α))

/-- JS truthiness fallback a || b on an optional string: undefined,
null and the empty string fall through to b. -/
def jsOrStr (a : Option String) (b : String) : String :=
  match a with
  | some s => if s = "" then b else s
  | none => b

/-- JS String.padEnd with spaces. -/
def padEnd (s : String) (n : Nat) : String :=
  s ++ String.mk (List.replicate (n - s.length) ' ')

/-- JS String.prototype.trim, executed on the character list: drop
whitespace from both ends. -/
def jsTrim (s : String) : String :=
  String.mk (((s.data.dropWhile Char.isWhitespace).reverse.dropWhile Char.isWhitespace).reverse)

/-- Worker of jsSplit: accumulate the current part (reversed) while
walking the characters. -/
def splitCharAux (sep : Char) : List Char → List Char → List String
  | [], acc => [String.mk acc.reverse]
  | c :: rest, acc =>
    if c = sep then String.mk acc.reverse :: splitCharAux sep rest []
    else splitCharAux sep rest (c :: acc)

/-- JS String.prototype.split with a one-character separator: every
occurrence splits, empty parts are kept, the empty string gives one
empty part. -/
def jsSplit (s : String) (sep : Char) : List String :=
  splitCharAux sep s.data []

/-- Character-list test that the first list heads the second. -/
def listStarts : List Char → List Char → Bool
  | [], _ => true
  | _ :: _, [] => false
  | p :: ps, c :: cs => decide (p = c) && listStarts ps cs

/-- JS String.prototype.startsWith. -/
def jsStartsWith (s pre : String) : Bool :=
  listStarts pre.data s.data

/-- JS String.prototype.slice from index 0. -/
def jsSlice (s : String) (n : Nat) : String :=
  String.mk (s.data.take n)

/-- Usage hint sent when /start carries no password. -/
def usageText : String :=
  "Вітаю! Для доступу введіть команду з паролем:\n`/start ваш_пароль`"

/-- Success message after a correct password. -/
def successText : String :=
  "✅ <b>Авторизація успішна!</b>\n\nОберіть дію:"

/-- Wrong-password message. -/
def wrongPassText : String :=
  "❌ Неправильний пароль."

/-- Prompt sent to an unauthenticated chat by the message handler. -/
def pleaseAuthText : String :=
  "Будь ласка, авторизуйтесь. Введіть `/start [пароль]`"

/-- Fallback prompt for unrecognized text from an authorized chat. -/
def useButtonsText : String :=
  "Будь ласка, використовуйте кнопки."

/-- Separator sent between the two lists by the show-all action. -/
def sepText : String := "---"

/-- Empty-state message of showApplications. -/
def appsEmptyText : String :=
  "📂 Заявок на урок поки що немає."

/-- Fetch-error message of showApplications. -/
def appsErrText : String :=
  "❌ Не вдалося отримати заявки на урок."

/-- Empty-state message of showCallbacks. -/
def cbsEmptyText : String :=
  "📂 Запитів на дзвінок поки що немає."

/-- Fetch-error message of showCallbacks. -/
def cbsErrText : String :=
  "❌ Не вдалося отримати запити на дзвінок."

/-- Header line of every copy response. -/
def copyBaseText : String := "Дані для копіювання:\n\n"

/-- Record-not-found message of the copy branch (sent from its catch). -/
def notFoundText : String :=
  "❌ Не вдалося знайти запис."

/-- Rejection sent to an unauthenticated chat by the callback handler. -/
def notAuthText : String :=
  "❌ Помилка: ви не авторизовані."

/-- The three reply-keyboard labels of mainKeyboard. -/
def showAllLabel : String := "Показати все"

/-- Label of the applications-only action. -/
def showAppsLabel : String := "Показати заявки на урок"

/-- Label of the call-backs-only action. -/
def showCbsLabel : String := "Показати запити на дзвінок"

/-- Table header built by showApplications. -/
def appsHeader : String :=
  "📋 <b>Всі заявки на урок:</b>\n\n<pre>ID  | Ім'я та Прізвище    | Контакти\n----|----------------------|--------------------------\n"

/-- One table row of showApplications: padded id, first and last name
sliced to 20 and padded to 22, contact (email falling back to phone,
then a placeholder) sliced to 26. -/
def formatAppRow (a : AppRecord) : String :=
  padEnd (toString a.id) 4 ++ "| " ++ padEnd (jsSlice (a.firstName ++ " " ++ a.lastName) 20) 22
    ++ "| " ++ jsSlice (jsOrStr a.email (jsOrStr a.phone "не вказано")) 26 ++ "\n"

/-- Full table text of showApplications. -/
def appsTableText (apps : List AppRecord) : String :=
  apps.foldl (fun acc a => acc ++ formatAppRow a) appsHeader ++ "</pre>"

/-- The one inline copy button generated per application row. -/
def appCopyRow (a : AppRecord) : List InlineButton :=
  [⟨"📋 Копіювати заявку №" ++ toString a.id, "copy_app_" ++ toString a.id⟩]

/-- Options of the applications table: HTML plus one inline copy
control per row (the reply_markup is replaced, not merged). -/
def appsTableOpts (apps : List AppRecord) : SendOptions :=
  ⟨some "HTML", false, apps.map appCopyRow⟩

/-- Table header built by showCallbacks. -/
def cbsHeader : String :=
  "📞 <b>Всі запити на дзвінок:</b>\n\n<pre>ID  | Номер телефону\n----|------------------\n"

/-- One table row of showCallbacks. -/
def formatCbRow (cb : CbRecord) : String :=
  padEnd (toString cb.id) 4 ++ "| " ++ cb.phone ++ "\n"

/-- Full table text of showCallbacks. -/
def cbsTableText (cbs : List CbRecord) : String :=
  cbs.foldl (fun acc cb => acc ++ formatCbRow cb) cbsHeader ++ "</pre>"

/-- The one inline copy button generated per call-back row. -/
def cbCopyRow (cb : CbRecord) : List InlineButton :=
  [⟨"📞 Копіювати дзвінок №" ++ toString cb.id, "copy_cb_" ++ toString cb.id⟩]

/-- Options of the call-backs table. -/
def cbsTableOpts (cbs : List CbRecord) : SendOptions :=
  ⟨some "HTML", false, cbs.map cbCopyRow⟩

/-- The message showApplications sends for a given query result: the
catch branch renders the fetch error; a null or empty data array
renders the empty state; otherwise the table with its inline copy
controls. -/
def appsRender (q : QueryResult AppRecord) : String × SendOptions :=
  match q with
  | Except.error _ => (appsErrText, mainKbOpts)
  | Except.ok none => (appsEmptyText, mainKbOpts)
  | Except.ok (some apps) =>
    if apps.length = 0 then (appsEmptyText, mainKbOpts)
    else (appsTableText apps, appsTableOpts apps)

/-- The message showCallbacks sends for a given query result. -/
def cbsRender (q : QueryResult CbRecord) : String × SendOptions :=
  match q with
  | Except.error _ => (cbsErrText, mainKbOpts)
  | Except.ok none => (cbsEmptyText, mainKbOpts)
  | Except.ok (some cbs) =>
    if cbs.length = 0 then (cbsEmptyText, mainKbOpts)
    else (cbsTableText cbs, cbsTableOpts cbs)

/-- showApplications: query, render, send through sendAndTrackMessage. -/
def showApplications (c : Ctx) (chatId : Int) (q : QueryResult AppRecord) : Ctx :=
  sendAndTrackMessage c chatId (appsRender q).1 (appsRender q).2

/-- showCallbacks: query, render, send through sendAndTrackMessage. -/
def showCallbacks (c : Ctx) (chatId : Int) (q : QueryResult CbRecord) : Ctx :=
  sendAndTrackMessage c chatId (cbsRender q).1 (cbsRender q).2

/-- The copy detail block for one application row. -/
def appDetail (a : AppRecord) : String :=
  "Ім'я: " ++ a.firstName ++ " " ++ a.lastName
    ++ "\nEmail: " ++ jsOrStr a.email "не вказано"
    ++ "\nТелефон: " ++ jsOrStr a.phone "не вказано"
    ++ "\nФормат: " ++ a.lessonFormat

/-- The copy detail block for one call-back row. -/
def cbDetail (cb : CbRecord) : String :=
  "Телефон: " ++ cb.phone

/-- The message the copy branch sends, by record type tag and query
result. A thrown query or a null data array lands in the catch (the
subscript applications[0] on null throws) and yields the not-found
error; a successful query yields the code block, whose body includes
the record detail only when a first row exists; an unknown type tag
sends the bare header block. -/
def copyRender (ty : String) (appsQ : QueryResult AppRecord) (cbsQ : QueryResult CbRecord) :
    String × SendOptions :=
  if ty = "app" then
    match appsQ with
    | Except.error _ => (notFoundText, mainKbOpts)
    | Except.ok none => (notFoundText, mainKbOpts)
    | Except.ok (some apps) =>
      match apps.head? with
      | some a => ("<code>" ++ copyBaseText ++ appDetail a ++ "</code>", htmlMainOpts)
      | none => ("<code>" ++ copyBaseText ++ "</code>", htmlMainOpts)
  else if ty = "cb" then
    match cbsQ with
    | Except.error _ => (notFoundText, mainKbOpts)
    | Except.ok none => (notFoundText, mainKbOpts)
    | Except.ok (some cbs) =>
      match cbs.head? with
      | some cb => ("<code>" ++ copyBaseText ++ cbDetail cb ++ "</code>", htmlMainOpts)
      | none => ("<code>" ++ copyBaseText ++ "</code>", htmlMainOpts)
  else ("<code>" ++ copyBaseText ++ "</code>", htmlMainOpts)

/-- The /start handler (bot.onText): clear the screen, trim the text
captured after /start; empty yields the usage hint, a match with the
configured secret adds the chat to authorizedUsers and sends the menu,
a mismatch sends the wrong-password message. -/
def handleStart (secretPassword : String) (c : Ctx) (chatId : Int) (matchRest : String) : Ctx :=
  let c1 := clearPreviousMessages c chatId
  let password := jsTrim matchRest
  if password = "" then
    sendAndTrackMessage c1 chatId usageText mdOpts
  else if password = secretPassword then
    let c2 := { c1 with st := { c1.st with authorizedUsers := setAdd c1.st.authorizedUsers chatId } }
    sendAndTrackMessage c2 chatId successText htmlMainOpts
  else
    sendAndTrackMessage c1 chatId wrongPassText noOpts

/-- Whether msg.text exists and starts with /start (the message
handler's early return; a non-text message has no text). -/
def textIsStart (text : Option String) : Bool :=
  match text with
  | some t => jsStartsWith t "/start"
  | none => false

/-- The message handler (bot.on message): skip /start messages; an
unauthenticated chat gets the authenticate prompt after a clear; an
authorized chat gets its screen cleared and the three keyboard labels
dispatched (show all renders applications, the separator, then
call-backs), any other input the use-the-buttons prompt. -/
def handleMessage (c : Ctx) (chatId : Int) (text : Option String)
    (appsQ : QueryResult AppRecord) (cbsQ : QueryResult CbRecord) : Ctx :=
  if textIsStart text then c
  else if isAuthorized c.st chatId = false then
    sendAndTrackMessage (clearPreviousMessages c chatId) chatId pleaseAuthText mdOpts
  else
    let c1 := clearPreviousMessages c chatId
    if text = some showAllLabel then
      showCallbacks (sendAndTrackMessage (showApplications c1 chatId appsQ) chatId sepText mainKbOpts) chatId cbsQ
    else if text = some showAppsLabel then
      showApplications c1 chatId appsQ
    else if text = some showCbsLabel then
      showCallbacks c1 chatId cbsQ
    else
      sendAndTrackMessage c1 chatId useButtonsText mainKbOpts

/-- The callback_query handler: acknowledge the callback, reject an
unauthenticated chat with a plain (untracked) error send, split the
callback data on underscores, and when the action token is copy send
the copy response for the type tag (missing parts behave as the
undefined of JS destructuring: they match no tag). Any other action
token does nothing further. -/
def handleCallback (c : Ctx) (cbQueryId : Nat) (chatId : Int) (data : String)
    (appsQ : QueryResult AppRecord) (cbsQ : QueryResult CbRecord) : Ctx :=
  let c0 := { c with ops := c.ops ++ [GatewayOp.ack cbQueryId] }
  if isAuthorized c0.st chatId = false then
    sendMessageRaw c0 chatId notAuthText noOpts
  else
    let parts := jsSplit data '_'
    if parts.headD "" = "copy" then
      let r := copyRender ((parts.drop 1).headD "") appsQ cbsQ
      sendAndTrackMessage c0 chatId r.1 r.2
    else c0

/-- Run the /start handler from a fresh context. -/
def runStart (secretPassword : String) (st : BotState) (outs : List (Option Nat))
    (delOk : Nat → Bool) (chatId : Int) (matchRest : String) : Ctx :=
  handleStart secretPassword (Ctx.init st outs delOk) chatId matchRest

/-- Run the message handler from a fresh context. -/
def runMessage (st : BotState) (outs : List (Option Nat)) (delOk : Nat → Bool)
    (chatId : Int) (text : Option String)
    (appsQ : QueryResult AppRecord) (cbsQ : QueryResult CbRecord) : Ctx :=
  handleMessage (Ctx.init st outs delOk) chatId text appsQ cbsQ

/-- Run the callback_query handler from a fresh context. -/
def runCallback (st : BotState) (outs : List (Option Nat)) (delOk : Nat → Bool)
    (cbQueryId : Nat) (chatId : Int) (data : String)
    (appsQ : QueryResult AppRecord) (cbsQ : QueryResult CbRecord) : Ctx :=
  handleCallback (Ctx.init st outs delOk) cbQueryId chatId data appsQ cbsQ

/-- Result of one notification endpoint invocation: the HTTP status
answered to the caller and the gateway sends issued. -/
structure HttpOut where
  status : Nat
  sends : List GatewayOp
  deriving Repr

/-- The formatted admin message of POST /notify/application. -/
def appNotifyText (a : AppRecord) : String :=
  "🎉 <b>Нова заявка на урок!</b>\n\n<b>Ім'я:</b> " ++ a.firstName ++ " " ++ a.lastName
    ++ "\n<b>Контакти:</b> <code>" ++ jsOrStr a.email (jsOrStr a.phone "не вказано")
    ++ "</code>\n<b>Формат:</b> " ++ a.lessonFormat

/-- The formatted admin message of POST /notify/callback. -/
def cbNotifyText (cb : CbRecord) : String :=
  "🔔 <b>Замовлено зворотний дзвінок!</b>\n\n<b>Телефон:</b> <code>" ++ cb.phone ++ "</code>"

/-- POST /notify/application: a missing (or falsy) record field is a
400 with no send; otherwise a fire-and-forget send to the admin chat
(its outcome not awaited) and a 200. -/
def notifyApplication (adminChatId : Int) (record : Option AppRecord) (sendResult : Option Nat) :
    HttpOut :=
  match record with
  | none => { status := 400, sends := [] }
  | some a =>
    { status := 200
      sends := [GatewayOp.send adminChatId (appNotifyText a) htmlOnlyOpts false sendResult] }

/-- POST /notify/callback, same shape as notifyApplication. -/
def notifyCallback (adminChatId : Int) (record : Option CbRecord) (sendResult : Option Nat) :
    HttpOut :=
  match record with
  | none => { status := 400, sends := [] }
  | some cb =>
    { status := 200
      sends := [GatewayOp.send adminChatId (cbNotifyText cb) htmlOnlyOpts false sendResult] }

/-- The send operations of an effect trace. -/
def sendsOf (ops : List GatewayOp) : List GatewayOp :=
  ops.filter (fun op => match op with | GatewayOp.send _ _ _ _ _ => true | _ => false)

/-- The delete operations of an effect trace. -/
def deletesOf (ops : List GatewayOp) : List GatewayOp :=
  ops.filter (fun op => match op with | GatewayOp.delete _ _ _ => true | _ => false)

/-- The texts of the send operations of an effect trace, in order. -/
def sentTexts (ops : List GatewayOp) : List String :=
  ops.filterMap (fun op => match op with | GatewayOp.send _ t _ _ _ => some t | _ => none)

/-- The delete operations clearPreviousMessages issues for a state:
one per tracked id of the chat, with the environment's outcome. -/
def expectedDeletes (st : BotState) (delOk : Nat → Bool) (chatId : Int) : List GatewayOp :=
  ((mapGet st.chatMessages chatId).getD []).map (fun i => GatewayOp.delete chatId i (delOk i))

/-- Looking up the key just set yields the new value. -/
theorem mapGet_mapSet_self (m : List (Int × List Nat)) (k : Int) (v : List Nat) :
    mapGet (mapSet m k v) k = some v := by
  induction m with
  | nil => simp [mapGet, mapSet]
  | cons p rest ih =>
    obtain ⟨k2, v2⟩ := p
    by_cases h : k2 = k <;> simp [mapGet, mapSet, h, ih]

/-- Setting one key leaves every other key's binding unchanged. -/
theorem mapGet_mapSet_ne (m : List (Int × List Nat)) (k k2 : Int) (v : List Nat)
    (h : k2 ≠ k) : mapGet (mapSet m k v) k2 = mapGet m k2 := by
  have hne : ¬ k = k2 := fun hh => h hh.symm
  induction m with
  | nil => simp [mapGet, mapSet, hne]
  | cons p rest ih =>
    obtain ⟨k3, v3⟩ := p
    by_cases h3 : k3 = k
    · subst h3
      simp [mapGet, mapSet, hne]
    · simp [mapGet, mapSet, h3, ih]

/-- setAdd never removes a member. -/
theorem setAdd_mono (s : List Int) (x y : Int) (h : s.contains y = true) :
    (setAdd s x).contains y = true := by
  by_cases hx : s.contains x <;> simp_all [setAdd, List.elem_iff]

/-- setAdd makes its argument a member. -/
theorem setAdd_contains_self (s : List Int) (x : Int) :
    (setAdd s x).contains x = true := by
  by_cases hx : s.contains x <;> simp_all [setAdd, List.elem_iff]

/-- setAdd of an existing member changes nothing. -/
theorem setAdd_of_contains (s : List Int) (x : Int) (h : s.contains x = true) :
    setAdd s x = s := by
  simp [setAdd, List.elem_iff.mp h]

/-- sentTexts splits over trace concatenation. -/
theorem sentTexts_append (a b : List GatewayOp) :
    sentTexts (a ++ b) = sentTexts a ++ sentTexts b := by
  simp [sentTexts, List.filterMap_append]

/-- Delete operations contribute no sent text. -/
theorem sentTexts_expectedDeletes (st : BotState) (delOk : Nat → Bool) (chatId : Int) :
    sentTexts (expectedDeletes st delOk chatId) = [] := by
  simp only [sentTexts, expectedDeletes, List.filterMap_map]
  simp [Function.comp, List.filterMap_eq_nil_iff]

/-- sendsOf splits over trace concatenation. -/
theorem sendsOf_append (a b : List GatewayOp) :
    sendsOf (a ++ b) = sendsOf a ++ sendsOf b := by
  simp [sendsOf, List.filter_append]

/-- Delete operations are not sends. -/
theorem sendsOf_expectedDeletes (st : BotState) (delOk : Nat → Bool) (chatId : Int) :
    sendsOf (expectedDeletes st delOk chatId) = [] := by
  simp only [sendsOf, expectedDeletes, List.filter_map]
  simp [Function.comp, List.filter_eq_nil_iff]

/-- deletesOf splits over trace concatenation. -/
theorem deletesOf_append (a b : List GatewayOp) :
    deletesOf (a ++ b) = deletesOf a ++ deletesOf b := by
  simp [deletesOf, List.filter_append]

/-- Unfolding equation of sendAndTrackMessage: the state change is
governed by the head outcome, the send op is always appended. -/
theorem sendAndTrack_unfold (c : Ctx) (chatId : Int) (text : String) (opts : SendOptions) :
    sendAndTrackMessage c chatId text opts =
      { st :=
          { authorizedUsers := c.st.authorizedUsers
            chatMessages :=
              match c.outcomes.headD none with
              | some mid =>
                mapSet c.st.chatMessages chatId (((mapGet c.st.chatMessages chatId).getD []) ++ [mid])
              | none => c.st.chatMessages }
        outcomes := c.outcomes.tail
        deleteOk := c.deleteOk
        ops := c.ops ++ [GatewayOp.send chatId text opts true (c.outcomes.headD none)] } := by
  unfold sendAndTrackMessage
  cases h : c.outcomes.headD none <;> rfl

/-- Unfolding equation of clearPreviousMessages. -/
theorem clear_unfold (c : Ctx) (chatId : Int) :
    clearPreviousMessages c chatId =
      { st :=
          { authorizedUsers := c.st.authorizedUsers
            chatMessages := mapSet c.st.chatMessages chatId [] }
        outcomes := c.outcomes
        deleteOk := c.deleteOk
        ops := c.ops ++ expectedDeletes c.st c.deleteOk chatId } := by
  unfold clearPreviousMessages
  cases h : mapGet c.st.chatMessages chatId <;> simp [expectedDeletes, h]

/-- C1: for every chat, after any call to clearPreviousMessages the
chat's tracked message set is the empty sequence, whatever ids were
tracked and whatever each gateway delete's outcome is (deletes are
attempted for exactly the tracked ids and every failure is swallowed:
the operation is total and the reset is unconditional). -/
theorem clearScreen_empties_tracked_set (st : BotState) (outs : List (Option Nat))
    (delOk : Nat → Bool) (chatId : Int) :
    mapGet (clearPreviousMessages (Ctx.init st outs delOk) chatId).st.chatMessages chatId
        = some []
      ∧ (clearPreviousMessages (Ctx.init st outs delOk) chatId).ops
          = expectedDeletes st delOk chatId
      ∧ (clearPreviousMessages (Ctx.init st outs delOk) chatId).st.authorizedUsers
          = st.authorizedUsers := by
  refine ⟨?_, ?_, ?_⟩ <;> simp [clear_unfold, Ctx.init, mapGet_mapSet_self]

/-- C6: sendAndTrackMessage never touches the authorization state; on
gateway success it appends exactly the returned message id to the end
of that chat's tracked list, leaving other chats' lists unchanged; on
gateway failure it raises nothing and leaves the whole state exactly
as before. -/
theorem sendAndTrack_appends_exactly (st : BotState) (outs : List (Option Nat))
    (delOk : Nat → Bool) (chatId : Int) (text : String) (opts : SendOptions) :
    (sendAndTrackMessage (Ctx.init st outs delOk) chatId text opts).st.authorizedUsers
        = st.authorizedUsers
      ∧ (∀ mid : Nat, outs.headD none = some mid →
          mapGet (sendAndTrackMessage (Ctx.init st outs delOk) chatId text opts).st.chatMessages
              chatId
            = some ((mapGet st.chatMessages chatId).getD [] ++ [mid])
          ∧ ∀ other : Int, other ≠ chatId →
              mapGet (sendAndTrackMessage (Ctx.init st outs delOk) chatId text opts).st.chatMessages
                  other
                = mapGet st.chatMessages other)
      ∧ (outs.headD none = none →
          (sendAndTrackMessage (Ctx.init st outs delOk) chatId text opts).st = st) := by
  refine ⟨?_, ?_, ?_⟩
  · simp [sendAndTrack_unfold, Ctx.init]
  · intro mid hmid
    rw [List.headD_eq_head?_getD] at hmid
    refine ⟨?_, ?_⟩
    · simp [sendAndTrack_unfold, Ctx.init, hmid, mapGet_mapSet_self]
    · intro other hother
      simp [sendAndTrack_unfold, Ctx.init, hmid, mapGet_mapSet_ne _ _ _ _ hother]
  · intro hnone
    rw [List.headD_eq_head?_getD] at hnone
    simp [sendAndTrack_unfold, Ctx.init, hnone]

/-- Witness for C6 at concrete inputs: a successful send appends id 9
after the already-tracked id 2; a failed send leaves the state as it
was. -/
theorem sendAndTrack_appends_exactly_witness :
    mapGet (sendAndTrackMessage (Ctx.init ⟨[1], [(5, [2])]⟩ [some 9] (fun _ => true)) 5 "hi"
        noOpts).st.chatMessages 5
      = some [2, 9]
    ∧ (sendAndTrackMessage (Ctx.init ⟨[1], [(5, [2])]⟩ [] (fun _ => true)) 5 "hi" noOpts).st
      = ⟨[1], [(5, [2])]⟩ := by
  refine ⟨?_, ?_⟩
  · have h := (sendAndTrack_appends_exactly ⟨[1], [(5, [2])]⟩ [some 9] (fun _ => true) 5 "hi"
      noOpts).2.1 9 rfl
    simpa using h.1
  · exact (sendAndTrack_appends_exactly ⟨[1], [(5, [2])]⟩ [] (fun _ => true) 5 "hi" noOpts).2.2 rfl

/-- sentTexts of an empty trace. -/
theorem sentTexts_nil : sentTexts [] = [] := rfl

/-- sentTexts of one send op. -/
theorem sentTexts_single_send (chatId : Int) (text : String) (opts : SendOptions)
    (tracked : Bool) (result : Option Nat) :
    sentTexts [GatewayOp.send chatId text opts tracked result] = [text] := rfl

/-- An acknowledgement contributes no sent text. -/
theorem sentTexts_single_ack (cbQueryId : Nat) :
    sentTexts [GatewayOp.ack cbQueryId] = [] := rfl

/-- sendsOf of an empty trace. -/
theorem sendsOf_nil : sendsOf [] = [] := rfl

/-- sendsOf of one send op. -/
theorem sendsOf_single_send (chatId : Int) (text : String) (opts : SendOptions)
    (tracked : Bool) (result : Option Nat) :
    sendsOf [GatewayOp.send chatId text opts tracked result]
      = [GatewayOp.send chatId text opts tracked result] := rfl

/-- An acknowledgement is not a send. -/
theorem sendsOf_single_ack (cbQueryId : Nat) :
    sendsOf [GatewayOp.ack cbQueryId] = [] := rfl

/-- sendsOf walks over a leading send op. -/
theorem sendsOf_cons_send (chatId : Int) (text : String) (opts : SendOptions) (tracked : Bool)
    (result : Option Nat) (rest : List GatewayOp) :
    sendsOf (GatewayOp.send chatId text opts tracked result :: rest)
      = GatewayOp.send chatId text opts tracked result :: sendsOf rest := by
  simp [sendsOf]

/-- deletesOf of an empty trace. -/
theorem deletesOf_nil : deletesOf [] = [] := rfl

/-- A send op is not a delete. -/
theorem deletesOf_single_send (chatId : Int) (text : String) (opts : SendOptions)
    (tracked : Bool) (result : Option Nat) :
    deletesOf [GatewayOp.send chatId text opts tracked result] = [] := rfl

/-- An acknowledgement is not a delete. -/
theorem deletesOf_single_ack (cbQueryId : Nat) :
    deletesOf [GatewayOp.ack cbQueryId] = [] := rfl

/-- The deletes of a clear are all deletes. -/
theorem deletesOf_expectedDeletes (st : BotState) (delOk : Nat → Bool) (chatId : Int) :
    deletesOf (expectedDeletes st delOk chatId) = expectedDeletes st delOk chatId := by
  simp only [deletesOf, expectedDeletes, List.filter_map]
  congr 1
  simp [Function.comp, List.filter_eq_self]

/-- sendAndTrackMessage preserves the authorization set. -/
theorem sendAndTrack_auth (c : Ctx) (chatId : Int) (text : String) (opts : SendOptions) :
    (sendAndTrackMessage c chatId text opts).st.authorizedUsers = c.st.authorizedUsers := by
  rw [sendAndTrack_unfold]

/-- clearPreviousMessages preserves the authorization set. -/
theorem clear_auth (c : Ctx) (chatId : Int) :
    (clearPreviousMessages c chatId).st.authorizedUsers = c.st.authorizedUsers := rfl

/-- A plain send does not change the state at all. -/
theorem raw_st (c : Ctx) (chatId : Int) (text : String) (opts : SendOptions) :
    (sendMessageRaw c chatId text opts).st = c.st := rfl

/-- The message handler never changes the authorization set. -/
theorem runMessage_auth (st : BotState) (outs : List (Option Nat)) (delOk : Nat → Bool)
    (chatId : Int) (text : Option String)
    (appsQ : QueryResult AppRecord) (cbsQ : QueryResult CbRecord) :
    (runMessage st outs delOk chatId text appsQ cbsQ).st.authorizedUsers
      = st.authorizedUsers := by
  unfold runMessage handleMessage
  split_ifs <;>
    simp [showApplications, showCallbacks, sendAndTrack_auth, clear_auth, Ctx.init]

/-- The callback handler never changes the authorization set. -/
theorem runCallback_auth (st : BotState) (outs : List (Option Nat)) (delOk : Nat → Bool)
    (cbQueryId : Nat) (chatId : Int) (data : String)
    (appsQ : QueryResult AppRecord) (cbsQ : QueryResult CbRecord) :
    (runCallback st outs delOk cbQueryId chatId data appsQ cbsQ).st.authorizedUsers
      = st.authorizedUsers := by
  unfold runCallback handleCallback
  by_cases h1 : isAuthorized st chatId = false <;>
    by_cases h2 : ((jsSplit data '_').head?.getD "") = "copy" <;>
      simp [h1, h2, sendMessageRaw, sendAndTrack_auth, Ctx.init]

/-- Case analysis of the /start handler's effect on the authorization
set: it adds the chat exactly when a non-empty trimmed password equals
the secret. -/
theorem runStart_auth (secret : String) (st : BotState) (outs : List (Option Nat))
    (delOk : Nat → Bool) (chatId : Int) (m1 : String) :
    (runStart secret st outs delOk chatId m1).st.authorizedUsers
      = (if jsTrim m1 ≠ "" ∧ jsTrim m1 = secret then setAdd st.authorizedUsers chatId
         else st.authorizedUsers) := by
  unfold runStart handleStart
  by_cases he : jsTrim m1 = ""
  · simp [he, sendAndTrack_auth, clear_auth, Ctx.init]
  · by_cases hs : jsTrim m1 = secret
    · have hse : ¬ secret = "" := hs ▸ he
      simp [he, hs, hse, sendAndTrack_auth, clear_auth, Ctx.init]
    · simp [he, hs, sendAndTrack_auth, clear_auth, Ctx.init]

/-- The sent texts of the /start handler, by branch. -/
theorem runStart_texts (secret : String) (st : BotState) (outs : List (Option Nat))
    (delOk : Nat → Bool) (chatId : Int) (m1 : String) :
    sentTexts (runStart secret st outs delOk chatId m1).ops
      = (if jsTrim m1 = "" then [usageText]
         else if jsTrim m1 = secret then [successText]
         else [wrongPassText]) := by
  unfold runStart handleStart
  by_cases he : jsTrim m1 = ""
  · simp [he, sendAndTrack_unfold, clear_unfold, Ctx.init, sentTexts_append,
      sentTexts_expectedDeletes, sentTexts_single_send, sentTexts_nil]
  · by_cases hs : jsTrim m1 = secret
    · have hse : ¬ secret = "" := hs ▸ he
      simp [he, hs, hse, sendAndTrack_unfold, clear_unfold, Ctx.init, sentTexts_append,
        sentTexts_expectedDeletes, sentTexts_single_send, sentTexts_nil]
    · simp [he, hs, sendAndTrack_unfold, clear_unfold, Ctx.init, sentTexts_append,
        sentTexts_expectedDeletes, sentTexts_single_send, sentTexts_nil]

/-- C2: for every chat and /start input, an empty trimmed password
yields the usage hint and changes no chat's authorization; otherwise
the chat ends authorized and receives the success menu exactly when
the supplied secret equals the configured one; a mismatch sends the
wrong-password message and changes no authorization; a repeated
correct /start leaves the authorization set unchanged (idempotent). -/
theorem start_authorization (secret : String) (st : BotState) (outs : List (Option Nat))
    (delOk : Nat → Bool) (chatId : Int) (m1 : String) :
    (jsTrim m1 = "" →
      sentTexts (runStart secret st outs delOk chatId m1).ops = [usageText]
      ∧ (runStart secret st outs delOk chatId m1).st.authorizedUsers = st.authorizedUsers)
    ∧ (jsTrim m1 ≠ "" →
        (jsTrim m1 = secret ↔
          isAuthorized (runStart secret st outs delOk chatId m1).st chatId = true
          ∧ sentTexts (runStart secret st outs delOk chatId m1).ops = [successText]))
    ∧ (jsTrim m1 ≠ "" → jsTrim m1 ≠ secret →
        sentTexts (runStart secret st outs delOk chatId m1).ops = [wrongPassText]
        ∧ (runStart secret st outs delOk chatId m1).st.authorizedUsers = st.authorizedUsers)
    ∧ (jsTrim m1 = secret → isAuthorized st chatId = true →
        (runStart secret st outs delOk chatId m1).st.authorizedUsers
          = st.authorizedUsers) := by
  refine ⟨?_, ?_, ?_, ?_⟩
  · intro he
    simp [runStart_texts, runStart_auth, he]
  · intro hne
    constructor
    · intro hs
      refine ⟨?_, ?_⟩
      · simp only [isAuthorized]
        rw [runStart_auth, if_pos ⟨hne, hs⟩]
        exact setAdd_contains_self _ _
      · rw [runStart_texts, if_neg hne, if_pos hs]
    · rintro ⟨-, htext⟩
      by_cases hs : jsTrim m1 = secret
      · exact hs
      · rw [runStart_texts, if_neg hne, if_neg hs] at htext
        have hd : wrongPassText ≠ successText := by decide
        simp_all
  · intro hne hs
    constructor
    · rw [runStart_texts, if_neg hne, if_neg hs]
    · rw [runStart_auth, if_neg (fun hc => hs hc.2)]
  · intro hs hauth
    simp only [isAuthorized] at hauth
    rw [runStart_auth]
    split_ifs with hc
    · exact setAdd_of_contains _ _ hauth
    · rfl

/-- Witness for C2 at concrete inputs: empty password gives the usage
hint; the correct secret authorizes chat 5 and sends the menu; a wrong
secret sends the wrong-password message and leaves chat 5 out; a
repeated correct /start from the already-authorized admin chat 1
leaves the set unchanged. -/
theorem start_authorization_witness :
    (sentTexts (runStart "pw" ⟨[1], []⟩ [some 9] (fun _ => true) 5 "  ").ops = [usageText]
      ∧ (runStart "pw" ⟨[1], []⟩ [some 9] (fun _ => true) 5 "  ").st.authorizedUsers = [1])
    ∧ (isAuthorized (runStart "pw" ⟨[1], []⟩ [some 9] (fun _ => true) 5 " pw").st 5 = true
        ∧ sentTexts (runStart "pw" ⟨[1], []⟩ [some 9] (fun _ => true) 5 " pw").ops
            = [successText])
    ∧ (sentTexts (runStart "pw" ⟨[1], []⟩ [some 9] (fun _ => true) 5 " bad").ops
          = [wrongPassText]
        ∧ (runStart "pw" ⟨[1], []⟩ [some 9] (fun _ => true) 5 " bad").st.authorizedUsers = [1])
    ∧ (runStart "pw" ⟨[1], []⟩ [some 9] (fun _ => true) 1 " pw").st.authorizedUsers = [1] := by
  refine ⟨(start_authorization "pw" ⟨[1], []⟩ [some 9] (fun _ => true) 5 "  ").1 (by decide),
    (start_authorization "pw" ⟨[1], []⟩ [some 9] (fun _ => true) 5 " pw").2.1 (by decide)
      |>.mp (by decide),
    (start_authorization "pw" ⟨[1], []⟩ [some 9] (fun _ => true) 5 " bad").2.2.1 (by decide)
      (by decide),
    (start_authorization "pw" ⟨[1], []⟩ [some 9] (fun _ => true) 1 " pw").2.2.2 (by decide)
      (by decide)⟩

/-- C8: the authorization set starts as exactly the configured admin
identity (isAuthorized is true for the admin and false for every other
unseen chat), the message and callback handlers never change it, the
/start handler only ever adds the calling chat on a correct non-empty
secret, and no operation removes a member: once authorized, a chat
stays authorized. -/
theorem authorized_set_monotone (admin : Int) (secret : String) (st : BotState)
    (outs : List (Option Nat)) (delOk : Nat → Bool) (chatId x : Int) (m1 : String)
    (text : Option String) (appsQ : QueryResult AppRecord) (cbsQ : QueryResult CbRecord)
    (cbQueryId : Nat) (data : String) :
    (initialState admin).authorizedUsers = [admin]
    ∧ (isAuthorized (initialState admin) x = true ↔ x = admin)
    ∧ (runMessage st outs delOk chatId text appsQ cbsQ).st.authorizedUsers
        = st.authorizedUsers
    ∧ (runCallback st outs delOk cbQueryId chatId data appsQ cbsQ).st.authorizedUsers
        = st.authorizedUsers
    ∧ (runStart secret st outs delOk chatId m1).st.authorizedUsers
        = (if jsTrim m1 ≠ "" ∧ jsTrim m1 = secret then setAdd st.authorizedUsers chatId
           else st.authorizedUsers)
    ∧ (isAuthorized st x = true →
        isAuthorized (runStart secret st outs delOk chatId m1).st x = true) := by
  refine ⟨rfl, ?_, runMessage_auth _ _ _ _ _ _ _, runCallback_auth _ _ _ _ _ _ _ _,
    runStart_auth _ _ _ _ _ _, ?_⟩
  · simp [isAuthorized, initialState, List.elem_iff]
  · intro hx
    simp only [isAuthorized] at hx ⊢
    rw [runStart_auth]
    split_ifs
    · exact setAdd_mono _ _ _ hx
    · exact hx

/-- Witness for C8 at concrete inputs: the initial state of admin 1
authorizes exactly chat 1, and the admin stays authorized after a
correct /start from chat 5. -/
theorem authorized_set_monotone_witness :
    isAuthorized (initialState 1) 1 = true
    ∧ isAuthorized (initialState 1) 5 = false
    ∧ isAuthorized (runStart "pw" ⟨[1], []⟩ [some 9] (fun _ => true) 5 " pw").st 1 = true := by
  refine ⟨(authorized_set_monotone 1 "pw" ⟨[1], []⟩ [] (fun _ => true) 0 1 "" none
      (Except.error ()) (Except.error ()) 0 "").2.1.mpr rfl, by decide,
    (authorized_set_monotone 1 "pw" ⟨[1], []⟩ [some 9] (fun _ => true) 5 1 " pw" none
      (Except.error ()) (Except.error ()) 0 "").2.2.2.2.2 (by decide)⟩

/-- C3: for every record type tag and id and every chat outside the
authorized set, a callback (copy) action sends only the authorization
error, changes no state, and its entire result is independent of
whatever the Record Source queries would return: no query result can
reach an unauthenticated chat. -/
theorem unauth_callback_no_leak (st : BotState) (outs : List (Option Nat)) (delOk : Nat → Bool)
    (cbQueryId : Nat) (chatId : Int) (data : String)
    (appsQ appsQ2 : QueryResult AppRecord) (cbsQ cbsQ2 : QueryResult CbRecord)
    (h : isAuthorized st chatId = false) :
    sentTexts (runCallback st outs delOk cbQueryId chatId data appsQ cbsQ).ops = [notAuthText]
    ∧ (runCallback st outs delOk cbQueryId chatId data appsQ cbsQ).st = st
    ∧ runCallback st outs delOk cbQueryId chatId data appsQ cbsQ
        = runCallback st outs delOk cbQueryId chatId data appsQ2 cbsQ2 := by
  unfold runCallback handleCallback
  simp [h, sendMessageRaw, Ctx.init, sentTexts]

/-- Witness for C3: chat 5 is not authorized in state with only admin
1; a copy action for an existing application row sends only the
authorization error and leaves the state unchanged. -/
theorem unauth_callback_no_leak_witness :
    sentTexts (runCallback ⟨[1], []⟩ [some 9] (fun _ => true) 3 5 "copy_app_2"
        (Except.ok (some [⟨2, "Anna", "K", none, none, "online"⟩]))
        (Except.ok (some []))).ops
      = [notAuthText]
    ∧ (runCallback ⟨[1], []⟩ [some 9] (fun _ => true) 3 5 "copy_app_2"
        (Except.ok (some [⟨2, "Anna", "K", none, none, "online"⟩]))
        (Except.ok (some []))).st
      = ⟨[1], []⟩ := by
  have h := unauth_callback_no_leak ⟨[1], []⟩ [some 9] (fun _ => true) 3 5 "copy_app_2"
    (Except.ok (some [⟨2, "Anna", "K", none, none, "online"⟩])) (Except.error ())
    (Except.ok (some [])) (Except.error ()) (by decide)
  exact ⟨h.1, h.2.1⟩

/-- C10: for an authorized chat, a callback whose data does not split
to the action token copy produces only the callback acknowledgement
and leaves the whole state (tracked messages and authorization)
unchanged. -/
theorem non_copy_callback_frame (st : BotState) (outs : List (Option Nat)) (delOk : Nat → Bool)
    (cbQueryId : Nat) (chatId : Int) (data : String)
    (appsQ : QueryResult AppRecord) (cbsQ : QueryResult CbRecord)
    (h1 : isAuthorized st chatId = true)
    (h2 : (jsSplit data '_').headD "" ≠ "copy") :
    (runCallback st outs delOk cbQueryId chatId data appsQ cbsQ).ops = [GatewayOp.ack cbQueryId]
    ∧ (runCallback st outs delOk cbQueryId chatId data appsQ cbsQ).st = st := by
  rw [List.headD_eq_head?_getD] at h2
  unfold runCallback handleCallback
  simp [h1, h2, Ctx.init]

/-- Witness for C10: authorized chat 1, callback data noop with a
tracked message present: only the acknowledgement is issued and the
state survives. -/
theorem non_copy_callback_frame_witness :
    (runCallback ⟨[1], [(1, [4])]⟩ [some 9] (fun _ => true) 3 1 "noop"
        (Except.ok (some [])) (Except.ok (some []))).ops
      = [GatewayOp.ack 3]
    ∧ (runCallback ⟨[1], [(1, [4])]⟩ [some 9] (fun _ => true) 3 1 "noop"
        (Except.ok (some [])) (Except.ok (some []))).st
      = ⟨[1], [(1, [4])]⟩ :=
  non_copy_callback_frame ⟨[1], [(1, [4])]⟩ [some 9] (fun _ => true) 3 1 "noop"
    (Except.ok (some [])) (Except.ok (some [])) (by decide) (by decide)

/-- C5: each notification endpoint answers 400 and sends nothing when
the body carries no record; with a record it sends exactly one
formatted message to the admin identity and answers 200, and the
status does not depend on the send's outcome. The formatted contact
prefers a non-empty email over the phone (jsOrStr). -/
theorem notify_endpoints_spec (admin : Int) (ra : Option AppRecord) (rc : Option CbRecord)
    (oa oc : Option Nat) :
    (ra = none → (notifyApplication admin ra oa).status = 400
      ∧ (notifyApplication admin ra oa).sends = [])
    ∧ (∀ a : AppRecord, ra = some a → (notifyApplication admin ra oa).status = 200
        ∧ (notifyApplication admin ra oa).sends
            = [GatewayOp.send admin (appNotifyText a) htmlOnlyOpts false oa])
    ∧ (rc = none → (notifyCallback admin rc oc).status = 400
      ∧ (notifyCallback admin rc oc).sends = [])
    ∧ (∀ cb : CbRecord, rc = some cb → (notifyCallback admin rc oc).status = 200
        ∧ (notifyCallback admin rc oc).sends
            = [GatewayOp.send admin (cbNotifyText cb) htmlOnlyOpts false oc])
    ∧ (notifyApplication admin ra oa).status = (notifyApplication admin ra none).status
    ∧ (notifyCallback admin rc oc).status = (notifyCallback admin rc none).status
    ∧ (∀ e b : String, e ≠ "" → jsOrStr (some e) b = e)
    ∧ (∀ b : String, jsOrStr none b = b ∧ jsOrStr (some "") b = b) := by
  refine ⟨?_, ?_, ?_, ?_, ?_, ?_, ?_, ?_⟩
  · rintro rfl
    exact ⟨rfl, rfl⟩
  · rintro a rfl
    exact ⟨rfl, rfl⟩
  · rintro rfl
    exact ⟨rfl, rfl⟩
  · rintro cb rfl
    exact ⟨rfl, rfl⟩
  · cases ra <;> rfl
  · cases rc <;> rfl
  · intro e b he
    simp [jsOrStr, he]
  · intro b
    exact ⟨rfl, rfl⟩

/-- Witness for C5: an empty body gives 400 with no send on both
endpoints; a present record gives 200, a single admin send even when
the gateway send fails (outcome none), and the email wins over the
phone in the contact fallback. -/
theorem notify_endpoints_spec_witness :
    ((notifyApplication 7 none none).status = 400
      ∧ (notifyApplication 7 none none).sends = [])
    ∧ ((notifyApplication 7 (some ⟨2, "Anna", "K", some "a@b.c", some "+380", "online"⟩)
          none).status = 200
        ∧ (notifyApplication 7 (some ⟨2, "Anna", "K", some "a@b.c", some "+380", "online"⟩)
            none).sends
          = [GatewayOp.send 7
              (appNotifyText ⟨2, "Anna", "K", some "a@b.c", some "+380", "online"⟩)
              htmlOnlyOpts false none])
    ∧ ((notifyCallback 7 none none).status = 400 ∧ (notifyCallback 7 none none).sends = [])
    ∧ ((notifyCallback 7 (some ⟨3, "+380"⟩) none).status = 200)
    ∧ jsOrStr (some "a@b.c") "+380" = "a@b.c" := by
  refine ⟨(notify_endpoints_spec 7 none none none none).1 rfl,
    (notify_endpoints_spec 7 (some ⟨2, "Anna", "K", some "a@b.c", some "+380", "online"⟩)
      none none none).2.1 ⟨2, "Anna", "K", some "a@b.c", some "+380", "online"⟩ rfl,
    (notify_endpoints_spec 7 none none none none).2.2.1 rfl,
    ((notify_endpoints_spec 7 none (some ⟨3, "+380"⟩) none none).2.2.2.1 ⟨3, "+380"⟩ rfl).1,
    (notify_endpoints_spec 7 none none none none).2.2.2.2.2.2.1 "a@b.c" "+380" (by decide)⟩

/-- C7: every inbound chat event that emits output clears the screen
before its first send: the /start handler's trace is the old tracked
ids' deletes followed only by sends, the message handler's trace is of
the same shape whenever it sends at all, while the callback handler
issues no delete, and a copy action from an authorized chat appends
the new message id after the previously tracked ids. -/
theorem clear_before_first_send (secret : String) (st : BotState) (outs : List (Option Nat))
    (delOk : Nat → Bool) (chatId : Int) (m1 : String) (text : Option String)
    (appsQ : QueryResult AppRecord) (cbsQ : QueryResult CbRecord)
    (cbQueryId : Nat) (data : String) (mid : Nat) :
    ((runStart secret st outs delOk chatId m1).ops
        = expectedDeletes st delOk chatId
            ++ sendsOf (runStart secret st outs delOk chatId m1).ops)
    ∧ (sendsOf (runMessage st outs delOk chatId text appsQ cbsQ).ops ≠ [] →
        (runMessage st outs delOk chatId text appsQ cbsQ).ops
          = expectedDeletes st delOk chatId
              ++ sendsOf (runMessage st outs delOk chatId text appsQ cbsQ).ops)
    ∧ deletesOf (runCallback st outs delOk cbQueryId chatId data appsQ cbsQ).ops = []
    ∧ (isAuthorized st chatId = true → (jsSplit data '_').headD "" = "copy" →
        outs.headD none = some mid →
        mapGet (runCallback st outs delOk cbQueryId chatId data appsQ cbsQ).st.chatMessages
            chatId
          = some ((mapGet st.chatMessages chatId).getD [] ++ [mid])) := by
  refine ⟨?_, ?_, ?_, ?_⟩
  · unfold runStart handleStart
    by_cases he : jsTrim m1 = ""
    · simp [he, clear_unfold, sendAndTrack_unfold, Ctx.init, sendsOf_append,
        sendsOf_expectedDeletes, sendsOf_single_send, sendsOf_nil]
    · by_cases hs : jsTrim m1 = secret
      · have hse : ¬ secret = "" := hs ▸ he
        simp [he, hs, hse, clear_unfold, sendAndTrack_unfold, Ctx.init, sendsOf_append,
          sendsOf_expectedDeletes, sendsOf_single_send, sendsOf_nil]
      · simp [he, hs, clear_unfold, sendAndTrack_unfold, Ctx.init, sendsOf_append,
          sendsOf_expectedDeletes, sendsOf_single_send, sendsOf_nil]
  · intro hsend
    unfold runMessage handleMessage at hsend ⊢
    by_cases h0 : textIsStart text
    · simp [h0, Ctx.init, sendsOf_nil] at hsend
    · by_cases ha : isAuthorized st chatId = false
      · simp [h0, ha, clear_unfold, sendAndTrack_unfold, Ctx.init, sendsOf_append,
          sendsOf_expectedDeletes, sendsOf_single_send, sendsOf_nil]
      · have hts1 : textIsStart (some showAllLabel) = false := by decide
        have hts2 : textIsStart (some showAppsLabel) = false := by decide
        have hts3 : textIsStart (some showCbsLabel) = false := by decide
        have hne1 : showAppsLabel = showAllLabel ↔ False := by
          constructor <;> intro hx <;> [revert hx; exact hx.elim]
          decide
        have hne2 : showCbsLabel = showAllLabel ↔ False := by
          constructor <;> intro hx <;> [revert hx; exact hx.elim]
          decide
        have hne3 : showCbsLabel = showAppsLabel ↔ False := by
          constructor <;> intro hx <;> [revert hx; exact hx.elim]
          decide
        by_cases hAll : text = some showAllLabel
        · simp [h0, ha, hAll, hts1, showApplications, showCallbacks, clear_unfold,
            sendAndTrack_unfold, Ctx.init, sendsOf_cons_send, sendsOf_append, sendsOf_expectedDeletes,
            sendsOf_single_send, sendsOf_nil, List.append_assoc]
        · by_cases hApps : text = some showAppsLabel
          · simp [h0, ha, hAll, hApps, hts2, hne1, showApplications, clear_unfold,
              sendAndTrack_unfold, Ctx.init, sendsOf_cons_send, sendsOf_append, sendsOf_expectedDeletes,
              sendsOf_single_send, sendsOf_nil]
          · by_cases hCbs : text = some showCbsLabel
            · simp [h0, ha, hAll, hApps, hCbs, hts3, hne2, hne3, showCallbacks, clear_unfold,
                sendAndTrack_unfold, Ctx.init, sendsOf_cons_send, sendsOf_append, sendsOf_expectedDeletes,
                sendsOf_single_send, sendsOf_nil]
            · simp [h0, ha, hAll, hApps, hCbs, clear_unfold, sendAndTrack_unfold, Ctx.init,
                sendsOf_cons_send, sendsOf_append, sendsOf_expectedDeletes,
                sendsOf_single_send, sendsOf_nil]
  · unfold runCallback handleCallback
    by_cases h1 : isAuthorized st chatId = false <;>
      by_cases h2 : ((jsSplit data '_').head?.getD "") = "copy" <;>
        simp [h1, h2, sendMessageRaw, sendAndTrack_unfold, Ctx.init, deletesOf,
          deletesOf_append, deletesOf_single_send, deletesOf_single_ack, deletesOf_nil]
  · intro h1 h2 hmid
    rw [List.headD_eq_head?_getD] at h2
    rw [List.headD_eq_head?_getD] at hmid
    unfold runCallback handleCallback
    simp [h1, h2, sendAndTrack_unfold, Ctx.init, hmid, mapGet_mapSet_self]

/-- Witness for C7 at concrete inputs: an authorized show action from
chat 1 with tracked id 4 deletes first and then only sends; a copy
action from the same state issues no delete and appends the returned
id 9 after the tracked id 4. -/
theorem clear_before_first_send_witness :
    ((runMessage ⟨[1], [(1, [4])]⟩ [some 9] (fun _ => true) 1 (some showAppsLabel)
        (Except.ok (some [])) (Except.ok (some []))).ops
      = expectedDeletes ⟨[1], [(1, [4])]⟩ (fun _ => true) 1
          ++ sendsOf (runMessage ⟨[1], [(1, [4])]⟩ [some 9] (fun _ => true) 1
              (some showAppsLabel) (Except.ok (some [])) (Except.ok (some []))).ops)
    ∧ deletesOf (runCallback ⟨[1], [(1, [4])]⟩ [some 9] (fun _ => true) 3 1 "copy_app_2"
        (Except.ok (some [])) (Except.ok (some []))).ops = []
    ∧ mapGet (runCallback ⟨[1], [(1, [4])]⟩ [some 9] (fun _ => true) 3 1 "copy_app_2"
        (Except.ok (some [])) (Except.ok (some []))).st.chatMessages 1
      = some [4, 9] := by
  have h := clear_before_first_send "pw" ⟨[1], [(1, [4])]⟩ [some 9] (fun _ => true) 1 ""
    (some showAppsLabel) (Except.ok (some [])) (Except.ok (some [])) 3 "copy_app_2" 9
  exact ⟨h.2.1 (by decide), h.2.2.1, by simpa using h.2.2.2 (by decide) (by decide) rfl⟩

/-- sentTexts skips a leading acknowledgement. -/
theorem sentTexts_cons_ack (cbQueryId : Nat) (rest : List GatewayOp) :
    sentTexts (GatewayOp.ack cbQueryId :: rest) = sentTexts rest := by
  simp [sentTexts]

/-- sentTexts walks over a leading send op. -/
theorem sentTexts_cons_send (chatId : Int) (text : String) (opts : SendOptions) (tracked : Bool)
    (result : Option Nat) (rest : List GatewayOp) :
    sentTexts (GatewayOp.send chatId text opts tracked result :: rest)
      = text :: sentTexts rest := by
  simp [sentTexts]

/-- C9: a text other than a /start command from an unauthenticated chat always yields
the authenticate prompt (after a clear) with no authorization change;
an authorized chat has exactly the three keyboard labels dispatched —
show-all renders the applications screen, the separator, then the
call-backs screen; the single-list labels render their one screen —
where a successful query renders the empty-state message on no rows
and otherwise the formatted table whose options carry exactly one
inline copy control per row; any other text yields the use-the-buttons
prompt. -/
theorem message_dispatch (st : BotState) (outs : List (Option Nat)) (delOk : Nat → Bool)
    (chatId : Int) (t : String) (text : Option String)
    (appsQ : QueryResult AppRecord) (cbsQ : QueryResult CbRecord)
    (l : List AppRecord) (lc : List CbRecord) (a : AppRecord) (cb : CbRecord) :
    (isAuthorized st chatId = false → textIsStart text = false →
      sentTexts (runMessage st outs delOk chatId text appsQ cbsQ).ops = [pleaseAuthText]
      ∧ (runMessage st outs delOk chatId text appsQ cbsQ).st.authorizedUsers
          = st.authorizedUsers)
    ∧ (isAuthorized st chatId = true →
        sentTexts (runMessage st outs delOk chatId (some showAllLabel) appsQ cbsQ).ops
          = [(appsRender appsQ).1, sepText, (cbsRender cbsQ).1])
    ∧ (isAuthorized st chatId = true →
        sentTexts (runMessage st outs delOk chatId (some showAppsLabel) appsQ cbsQ).ops
          = [(appsRender appsQ).1])
    ∧ (isAuthorized st chatId = true →
        sentTexts (runMessage st outs delOk chatId (some showCbsLabel) appsQ cbsQ).ops
          = [(cbsRender cbsQ).1])
    ∧ (isAuthorized st chatId = true → jsStartsWith t "/start" = false →
        t ≠ showAllLabel → t ≠ showAppsLabel → t ≠ showCbsLabel →
        sentTexts (runMessage st outs delOk chatId (some t) appsQ cbsQ).ops
          = [useButtonsText])
    ∧ appsRender (Except.ok (some [])) = (appsEmptyText, mainKbOpts)
    ∧ cbsRender (Except.ok (some [])) = (cbsEmptyText, mainKbOpts)
    ∧ (l ≠ [] →
        appsRender (Except.ok (some l)) = (appsTableText l, appsTableOpts l)
        ∧ (appsTableOpts l).inline_kb = l.map appCopyRow)
    ∧ (lc ≠ [] →
        cbsRender (Except.ok (some lc)) = (cbsTableText lc, cbsTableOpts lc)
        ∧ (cbsTableOpts lc).inline_kb = lc.map cbCopyRow)
    ∧ appCopyRow a
        = [⟨"📋 Копіювати заявку №" ++ toString a.id, "copy_app_" ++ toString a.id⟩]
    ∧ cbCopyRow cb
        = [⟨"📞 Копіювати дзвінок №" ++ toString cb.id, "copy_cb_" ++ toString cb.id⟩] := by
  have hts1 : textIsStart (some showAllLabel) = false := by decide
  have hts2 : textIsStart (some showAppsLabel) = false := by decide
  have hts3 : textIsStart (some showCbsLabel) = false := by decide
  refine ⟨?_, ?_, ?_, ?_, ?_, rfl, rfl, ?_, ?_, rfl, rfl⟩
  · intro ha h0
    constructor
    · unfold runMessage handleMessage
      simp [ha, h0, clear_unfold, sendAndTrack_unfold, Ctx.init, sentTexts_append,
        sentTexts_expectedDeletes, sentTexts_single_send, sentTexts_nil]
    · exact runMessage_auth _ _ _ _ _ _ _
  · intro ha
    unfold runMessage handleMessage
    simp [ha, hts1, showApplications, showCallbacks, clear_unfold, sendAndTrack_unfold,
      Ctx.init, sentTexts_append, sentTexts_expectedDeletes, sentTexts_cons_send,
      sentTexts_single_send, sentTexts_nil, List.append_assoc]
  · intro ha
    have hne1 : showAppsLabel = showAllLabel ↔ False := by
      constructor <;> intro hx <;> [revert hx; exact hx.elim]
      decide
    unfold runMessage handleMessage
    simp [ha, hts2, hne1, showApplications, clear_unfold, sendAndTrack_unfold, Ctx.init,
      sentTexts_append, sentTexts_expectedDeletes, sentTexts_cons_send, sentTexts_single_send,
      sentTexts_nil]
  · intro ha
    have hne2 : showCbsLabel = showAllLabel ↔ False := by
      constructor <;> intro hx <;> [revert hx; exact hx.elim]
      decide
    have hne3 : showCbsLabel = showAppsLabel ↔ False := by
      constructor <;> intro hx <;> [revert hx; exact hx.elim]
      decide
    unfold runMessage handleMessage
    simp [ha, hts3, hne2, hne3, showCallbacks, clear_unfold, sendAndTrack_unfold, Ctx.init,
      sentTexts_append, sentTexts_expectedDeletes, sentTexts_cons_send, sentTexts_single_send,
      sentTexts_nil]
  · intro ha hstart ht1 ht2 ht3
    have h0 : textIsStart (some t) = false := by simp [textIsStart, hstart]
    unfold runMessage handleMessage
    simp [ha, h0, ht1, ht2, ht3, clear_unfold, sendAndTrack_unfold, Ctx.init,
      sentTexts_append, sentTexts_expectedDeletes, sentTexts_cons_send, sentTexts_single_send,
      sentTexts_nil]
  · intro hl
    have hlen : ¬ l.length = 0 := by simpa [List.length_eq_zero] using hl
    exact ⟨by simp [appsRender, hlen], rfl⟩
  · intro hlc
    have hlen : ¬ lc.length = 0 := by simpa [List.length_eq_zero] using hlc
    exact ⟨by simp [cbsRender, hlen], rfl⟩

/-- Witness for C9 at concrete inputs: an unseen chat gets the
authenticate prompt; the authorized admin's show-all renders the two
empty states around the separator; a table for one application row
carries one copy control; an unknown text gets the use-the-buttons
prompt. -/
theorem message_dispatch_witness :
    (sentTexts (runMessage ⟨[1], []⟩ [some 9] (fun _ => true) 5 (some "hi")
        (Except.ok (some [])) (Except.ok (some []))).ops
      = [pleaseAuthText])
    ∧ sentTexts (runMessage ⟨[1], []⟩ [some 9, some 10, some 11] (fun _ => true) 1
        (some showAllLabel) (Except.ok (some [])) (Except.ok (some []))).ops
      = [appsEmptyText, sepText, cbsEmptyText]
    ∧ (appsTableOpts [⟨7, "Anna", "K", none, none, "online"⟩]).inline_kb
      = [[⟨"📋 Копіювати заявку №7", "copy_app_7"⟩]]
    ∧ sentTexts (runMessage ⟨[1], []⟩ [some 9] (fun _ => true) 1 (some "hello")
        (Except.ok (some [])) (Except.ok (some []))).ops
      = [useButtonsText] := by
  have h5 := message_dispatch ⟨[1], []⟩ [some 9] (fun _ => true) 5 "hi" (some "hi")
    (Except.ok (some [])) (Except.ok (some [])) [] [] ⟨7, "Anna", "K", none, none, "online"⟩
    ⟨3, "+380"⟩
  have h1 := message_dispatch ⟨[1], []⟩ [some 9, some 10, some 11] (fun _ => true) 1 "hello"
    (some showAllLabel) (Except.ok (some [])) (Except.ok (some []))
    [⟨7, "Anna", "K", none, none, "online"⟩] [] ⟨7, "Anna", "K", none, none, "online"⟩
    ⟨3, "+380"⟩
  have h2 := message_dispatch ⟨[1], []⟩ [some 9] (fun _ => true) 1 "hello" (some "hello")
    (Except.ok (some [])) (Except.ok (some []))
    [⟨7, "Anna", "K", none, none, "online"⟩] [] ⟨7, "Anna", "K", none, none, "online"⟩
    ⟨3, "+380"⟩
  refine ⟨(h5.1 (by decide) (by decide)).1, ?_, ?_, ?_⟩
  · have := h1.2.1 (by decide)
    simpa using this
  · have := (h1.2.2.2.2.2.2.2.1 (by decide)).2
    simpa using this
  · exact h2.2.2.2.2.1 (by decide) (by decide) (by decide) (by decide) (by decide)

/-- C4 counterexample: with an authorized chat, a copy action whose
query succeeds but returns no row (the id does not exist) sends the
bare copyable header block, not the record-not-found error; and a show
action whose query returns an empty list sends the empty-state
message, not the could-not-fetch error. -/
theorem copy_not_found_counterexample :
    sentTexts (runCallback ⟨[1], []⟩ [some 9] (fun _ => true) 3 1 "copy_app_7"
        (Except.ok (some [])) (Except.ok (some []))).ops
      = ["<code>" ++ copyBaseText ++ "</code>"]
    ∧ "<code>" ++ copyBaseText ++ "</code>" ≠ notFoundText
    ∧ sentTexts (runMessage ⟨[1], []⟩ [some 9] (fun _ => true) 1 (some showAppsLabel)
        (Except.ok (some [])) (Except.ok (some []))).ops
      = [appsEmptyText]
    ∧ appsEmptyText ≠ appsErrText := by
  refine ⟨by decide, by decide, by decide, by decide⟩

/-- C4 amended: for an authorized chat, a copy action sends exactly
the copyRender response: a non-empty query result yields the first
row's full detail as a copyable block; a thrown query or a null body
yields the record-not-found error; an empty result yields a copyable
block holding only the header and no record data; and for the show
actions a thrown query yields the could-not-fetch message while an
empty list yields the empty-state message. The handlers are total: no
error propagates. -/
theorem copy_and_show_failure_handling (st : BotState) (outs : List (Option Nat))
    (delOk : Nat → Bool) (cbQueryId : Nat) (chatId : Int) (data : String)
    (appsQ : QueryResult AppRecord) (cbsQ : QueryResult CbRecord)
    (a : AppRecord) (rest : List AppRecord) (cb : CbRecord) (restC : List CbRecord)
    (h1 : isAuthorized st chatId = true)
    (hc : (jsSplit data '_').headD "" = "copy") :
    sentTexts (runCallback st outs delOk cbQueryId chatId data appsQ cbsQ).ops
      = [(copyRender (((jsSplit data '_').drop 1).headD "") appsQ cbsQ).1]
    ∧ copyRender "app" (Except.ok (some (a :: rest))) cbsQ
        = ("<code>" ++ copyBaseText ++ appDetail a ++ "</code>", htmlMainOpts)
    ∧ copyRender "app" (Except.error ()) cbsQ = (notFoundText, mainKbOpts)
    ∧ copyRender "app" (Except.ok none) cbsQ = (notFoundText, mainKbOpts)
    ∧ copyRender "app" (Except.ok (some [])) cbsQ
        = ("<code>" ++ copyBaseText ++ "</code>", htmlMainOpts)
    ∧ copyRender "cb" appsQ (Except.ok (some (cb :: restC)))
        = ("<code>" ++ copyBaseText ++ cbDetail cb ++ "</code>", htmlMainOpts)
    ∧ copyRender "cb" appsQ (Except.error ()) = (notFoundText, mainKbOpts)
    ∧ copyRender "cb" appsQ (Except.ok none) = (notFoundText, mainKbOpts)
    ∧ copyRender "cb" appsQ (Except.ok (some []))
        = ("<code>" ++ copyBaseText ++ "</code>", htmlMainOpts)
    ∧ appsRender (Except.error ()) = (appsErrText, mainKbOpts)
    ∧ cbsRender (Except.error ()) = (cbsErrText, mainKbOpts)
    ∧ appsRender (Except.ok (some [])) = (appsEmptyText, mainKbOpts)
    ∧ cbsRender (Except.ok (some [])) = (cbsEmptyText, mainKbOpts) := by
  rw [List.headD_eq_head?_getD] at hc
  refine ⟨?_, rfl, rfl, rfl, rfl, rfl, rfl, rfl, rfl, rfl, rfl, rfl, rfl⟩
  unfold runCallback handleCallback
  simp [h1, hc, sendAndTrack_unfold, Ctx.init, sentTexts_append, sentTexts_cons_ack,
    sentTexts_cons_send, sentTexts_single_send, sentTexts_single_ack, sentTexts_nil]

/-- Witness for C4's amended theorem at concrete inputs: authorized
chat 1, data copy_app_7, query returning one row: the sent text is the
full-detail copy block. -/
theorem copy_and_show_failure_handling_witness :
    sentTexts (runCallback ⟨[1], []⟩ [some 9] (fun _ => true) 3 1 "copy_app_7"
        (Except.ok (some [⟨7, "Anna", "K", none, some "+380", "online"⟩]))
        (Except.ok (some []))).ops
      = ["<code>" ++ copyBaseText
          ++ appDetail ⟨7, "Anna", "K", none, some "+380", "online"⟩ ++ "</code>"] := by
  have h := copy_and_show_failure_handling ⟨[1], []⟩ [some 9] (fun _ => true) 3 1 "copy_app_7"
    (Except.ok (some [⟨7, "Anna", "K", none, some "+380", "online"⟩])) (Except.ok (some []))
    ⟨7, "Anna", "K", none, some "+380", "online"⟩ [] ⟨3, "+380"⟩ []
    (by decide) (by decide)
  have h2 := h.1
  rw [h2]
  decide

end LanguageSchoolBot
